import Mathlib

/-!
Shallow embedding of the Bitespeed identity-reconciliation service
(`internal/models/contact.go`, `internal/service/reconciliation.go`,
`internal/handlers/identify.go`).

The SQLite store is modelled as a list of contact rows plus the next
auto-increment id.  Timestamps are natural numbers.  Go `*string` /
`*int64` fields become `Option`.  Go map-valued intermediates
(`contactMap`, `allLinkedIDs`, `emailSet`, `phoneSet`) are modelled as
insertion-ordered duplicate-free lists, which preserves exactly the
membership and multiplicity behaviour of the maps; Go's map iteration
order is unspecified, so insertion order is one admissible
determinization.  Store writes never fail in the model (storage errors
are out of scope for the claims settled here).
-/

namespace Bitespeed

/-- `models.Contact` from `internal/models/contact.go`.  `UpdatedAt` is
carried by no claim and is omitted; all other columns are kept. -/
structure Contact where
  id : Nat
  phoneNumber : Option String
  email : Option String
  linkedId : Option Nat
  linkPrecedence : String
  createdAt : Nat
  deletedAt : Option Nat
deriving Repr, DecidableEq

/-- The `contacts` table plus SQLite's auto-increment counter. -/
structure Store where
  contacts : List Contact
  nextId : Nat
deriving Repr, DecidableEq

/-- `queryContactsByEmail`: `SELECT ... WHERE email = $1 AND deleted_at IS NULL`. -/
def queryContactsByEmail (st : Store) (email : String) : List Contact :=
  st.contacts.filter (fun c => c.email == some email && c.deletedAt == none)

/-- `queryContactsByPhoneNumber`: `SELECT ... WHERE phone_number = $1 AND deleted_at IS NULL`. -/
def queryContactsByPhoneNumber (st : Store) (phone : String) : List Contact :=
  st.contacts.filter (fun c => c.phoneNumber == some phone && c.deletedAt == none)

/-- `queryContactsByLinkedID`: `SELECT ... WHERE linked_id = $1 AND deleted_at IS NULL`.
Note: the row whose `id` equals the argument is *not* selected. -/
def queryContactsByLinkedID (st : Store) (linkedID : Nat) : List Contact :=
  st.contacts.filter (fun c => c.linkedId == some linkedID && c.deletedAt == none)

/-- One `contactMap[c.ID] = c` assignment: keyed by `id`, overwriting. -/
def insertContact (m : List Contact) (c : Contact) : List Contact :=
  if m.any (fun x => x.id == c.id) then
    m.map (fun x => if x.id == c.id then c else x)
  else
    m ++ [c]

/-- One `allLinkedIDs[*c.LinkedID] = true` assignment (set insertion). -/
def insertLinkedId (s : List Nat) (c : Contact) : List Nat :=
  match c.linkedId with
  | some lid => if s.contains lid then s else s ++ [lid]
  | none => s

/-- `findLinkedContacts`: union of the email matches, the phone matches,
and, for every distinct `linkedId` seen among those, the rows whose
`linked_id` equals it. -/
def findLinkedContacts (st : Store) (email phoneNumber : Option String) : List Contact :=
  let m0 : List Contact := []
  let m1 := match email with
    | some e => if e != "" then (queryContactsByEmail st e).foldl insertContact m0 else m0
    | none => m0
  let m2 := match phoneNumber with
    | some p => if p != "" then (queryContactsByPhoneNumber st p).foldl insertContact m1 else m1
    | none => m1
  let linkedIds := m2.foldl insertLinkedId []
  linkedIds.foldl (fun m lid => (queryContactsByLinkedID st lid).foldl insertContact m) m2

/-- Head of a `sort.Slice` by `CreatedAt.Before`: the earliest-created
element; among elements sharing the earliest `createdAt`, the first in
slice order survives (exactly Go's stable insertion sort on the small
slices arising here; the comparator itself imposes no id tie-break). -/
def oldestFrom (c : Contact) (rest : List Contact) : Contact :=
  rest.foldl (fun best x => if x.createdAt < best.createdAt then x else best) c

/-- `findOldestContact`: sort by `createdAt` and take the first, `none`
on an empty slice. -/
def findOldestContact : List Contact → Option Contact
  | [] => none
  | c :: rest => some (oldestFrom c rest)

/-- `hasNewInformation`: the supplied email (non-nil, non-empty) is on no
row of the slice, or the supplied phone is on no row. -/
def hasNewInformation (contacts : List Contact) (email phoneNumber : Option String) : Bool :=
  let existingEmails := contacts.filterMap (fun c => c.email)
  let existingPhones := contacts.filterMap (fun c => c.phoneNumber)
  (match email with
   | some e => e != "" && !(existingEmails.contains e)
   | none => false)
  ||
  (match phoneNumber with
   | some p => p != "" && !(existingPhones.contains p)
   | none => false)

/-- `createPrimaryContact`: INSERT with `link_precedence = 'primary'`,
NULL `linked_id`; returns the row and the grown store. -/
def createPrimaryContact (st : Store) (email phoneNumber : Option String) (now : Nat) :
    Contact × Store :=
  let c : Contact :=
    { id := st.nextId, phoneNumber := phoneNumber, email := email, linkedId := none,
      linkPrecedence := "primary", createdAt := now, deletedAt := none }
  (c, { contacts := st.contacts ++ [c], nextId := st.nextId + 1 })

/-- `createSecondaryContact`: INSERT with `link_precedence = 'secondary'`
and the given `linked_id`. -/
def createSecondaryContact (st : Store) (email phoneNumber : Option String)
    (linkedID : Nat) (now : Nat) : Contact × Store :=
  let c : Contact :=
    { id := st.nextId, phoneNumber := phoneNumber, email := email, linkedId := some linkedID,
      linkPrecedence := "secondary", createdAt := now, deletedAt := none }
  (c, { contacts := st.contacts ++ [c], nextId := st.nextId + 1 })

/-- `updateContactPrecedence`: `UPDATE contacts SET link_precedence, linked_id WHERE id = $4`. -/
def updateContactPrecedence (st : Store) (id : Nat) (precedence : String)
    (linkedId : Option Nat) : Store :=
  { st with contacts := st.contacts.map (fun c =>
      if c.id == id then { c with linkPrecedence := precedence, linkedId := linkedId } else c) }

/-- One iteration of the `reconcilePrimaryStatus` loop.  The second
component counts executed UPDATE statements; the conditions read the
in-memory slice element `c` (Go never refreshes the structs), exactly as
the source does. -/
def reconcileStep (primaryID : Nat) (acc : Store × Nat) (c : Contact) : Store × Nat :=
  if c.id == primaryID then
    if c.linkPrecedence != "primary" then
      (updateContactPrecedence acc.1 c.id "primary" none, acc.2 + 1)
    else acc
  else
    if c.linkPrecedence != "secondary" || c.linkedId == none || !(c.linkedId == some primaryID) then
      (updateContactPrecedence acc.1 c.id "secondary" (some primaryID), acc.2 + 1)
    else acc

/-- `reconcilePrimaryStatus` over a slice; returns the store and the
number of UPDATEs executed. -/
def reconcilePrimaryStatus (st : Store) (contacts : List Contact) (primaryID : Nat) :
    Store × Nat :=
  contacts.foldl (reconcileStep primaryID) (st, 0)

/-- `getAllLinkedContacts`: `WHERE (id = $1 OR linked_id = $2) AND deleted_at IS NULL`. -/
def getAllLinkedContacts (st : Store) (primaryID : Nat) : List Contact :=
  st.contacts.filter (fun c =>
    (c.id == primaryID || c.linkedId == some primaryID) && c.deletedAt == none)

/-- `models.ContactResponse`. -/
structure ContactResponse where
  primaryContactId : Nat
  emails : List String
  phoneNumbers : List String
  secondaryContactIds : List Nat
deriving Repr, DecidableEq

/-- One step of the `emailSet[...] = true` / `phoneSet[...] = true`
collection loop in `buildResponse` (set insertion, primary value and
empty string excluded). -/
def collectStep (f : Contact → Option String) (primaryValue : String)
    (s : List String) (c : Contact) : List String :=
  match f c with
  | some v => if v != "" && v != primaryValue && !(s.contains v) then s ++ [v] else s
  | none => s

/-- The `emailSet` / `phoneSet` collection loop of `buildResponse`:
distinct non-empty values of `f` over the slice, the primary's own value
excluded, as an insertion-ordered list. -/
def collectDistinct (f : Contact → Option String) (primaryValue : String)
    (l : List Contact) : List String :=
  l.foldl (collectStep f primaryValue) []

/-- The first loop of `buildResponse`: the primary row's field value
(`""` when the row's pointer is nil or the row is absent). -/
def primaryField (f : Contact → Option String) (primaryID : Nat) (l : List Contact) : String :=
  l.foldl (fun acc c =>
    if c.id == primaryID then (match f c with | some v => v | none => acc) else acc) ""

/-- `buildResponse`: re-fetch the group rooted at `primaryID` and project
it (primary's email/phone first, then distinct others, plus the
non-primary ids). -/
def buildResponse (st : Store) (primaryID : Nat) : ContactResponse :=
  let allContacts := getAllLinkedContacts st primaryID
  let primaryEmail := primaryField (fun c => c.email) primaryID allContacts
  let primaryPhone := primaryField (fun c => c.phoneNumber) primaryID allContacts
  let secondaryContactIDs := (allContacts.filter (fun c => !(c.id == primaryID))).map (fun c => c.id)
  let emails := (if primaryEmail != "" then [primaryEmail] else [])
      ++ collectDistinct (fun c => c.email) primaryEmail allContacts
  let phoneNumbers := (if primaryPhone != "" then [primaryPhone] else [])
      ++ collectDistinct (fun c => c.phoneNumber) primaryPhone allContacts
  { primaryContactId := primaryID, emails := emails, phoneNumbers := phoneNumbers,
    secondaryContactIds := secondaryContactIDs }

/-- `ReconciliationService.Identify`. -/
def Identify (st : Store) (email phoneNumber : Option String) (now : Nat) :
    ContactResponse × Store :=
  match findLinkedContacts st email phoneNumber with
  | [] =>
    let pcSt := createPrimaryContact st email phoneNumber now
    (buildResponse pcSt.2 pcSt.1.id, pcSt.2)
  | c :: rest =>
    let primaryContact := oldestFrom c rest
    let hasNewInfo := hasNewInformation (c :: rest) email phoneNumber
    let st1 := if hasNewInfo then
        (createSecondaryContact st email phoneNumber primaryContact.id now).2
      else st
    let st2 := (reconcilePrimaryStatus st1 (c :: rest) primaryContact.id).1
    (buildResponse st2 primaryContact.id, st2)

/-- Errors surfaced by `IdentifyHandler.Handle`. -/
inductive HandlerError where
  | invalidInput
  | storageError
deriving Repr, DecidableEq

/-- `IdentifyHandler.Handle` after JSON decoding: validation first, the
service call only for valid input; the returned store witnesses the
writes performed. -/
def Handle (st : Store) (email phoneNumber : Option String) (now : Nat) :
    Except HandlerError ContactResponse × Store :=
  if (email == none || email == some "") && (phoneNumber == none || phoneNumber == some "") then
    (Except.error HandlerError.invalidInput, st)
  else
    let r := Identify st email phoneNumber now
    (Except.ok r.1, r.2)

/-- `SELECT ... WHERE id = ?` (first row wins, as ids are unique in real stores). -/
def getContactById (st : Store) (id : Nat) : Option Contact :=
  st.contacts.find? (fun c => c.id == id)

/-! ### Lemmas about the distinct-value collection loops of `buildResponse` -/

theorem mem_collectStep (f : Contact → Option String) (pv : String) (acc : List String)
    (c : Contact) (s : String) :
    s ∈ collectStep f pv acc c ↔ s ∈ acc ∨ (s ≠ "" ∧ s ≠ pv ∧ f c = some s) := by
  unfold collectStep
  split
  case h_2 hfc => simp [hfc]
  case h_1 v hfc =>
    rw [hfc]
    by_cases hcond : (v != "" && v != pv && !(acc.contains v)) = true
    · rw [if_pos hcond]
      simp only [Bool.and_eq_true, Bool.not_eq_true', bne_iff_ne, ne_eq] at hcond
      obtain ⟨⟨hv1, hv2⟩, hv3⟩ := hcond
      simp only [List.mem_append, List.mem_singleton, Option.some.injEq]
      constructor
      · rintro (h | h)
        · exact Or.inl h
        · subst h; exact Or.inr ⟨hv1, hv2, rfl⟩
      · rintro (h | ⟨h1, h2, h3⟩)
        · exact Or.inl h
        · subst h3; exact Or.inr rfl
    · rw [if_neg hcond]
      simp only [Bool.and_eq_true, Bool.not_eq_true', bne_iff_ne, ne_eq, not_and,
        Classical.not_not] at hcond
      constructor
      · exact Or.inl
      · rintro (h | ⟨h1, h2, h3⟩)
        · exact h
        · injection h3 with h3
          subst h3
          have h4 := hcond ⟨h1, h2⟩
          rw [List.contains, Bool.not_eq_false] at h4
          exact List.elem_iff.mp h4

theorem mem_collectFold (f : Contact → Option String) (pv : String) (l : List Contact) :
    ∀ (acc : List String) (s : String),
      s ∈ l.foldl (collectStep f pv) acc ↔
        s ∈ acc ∨ (s ≠ "" ∧ s ≠ pv ∧ ∃ c ∈ l, f c = some s) := by
  induction l with
  | nil => intro acc s; simp
  | cons c l ih =>
    intro acc s
    rw [List.foldl_cons, ih, mem_collectStep]
    constructor
    · rintro ((h | ⟨h1, h2, h3⟩) | ⟨h1, h2, d, hd, hfd⟩)
      · exact Or.inl h
      · exact Or.inr ⟨h1, h2, c, List.mem_cons_self c l, h3⟩
      · exact Or.inr ⟨h1, h2, d, List.mem_cons_of_mem c hd, hfd⟩
    · rintro (h | ⟨h1, h2, d, hd, hfd⟩)
      · exact Or.inl (Or.inl h)
      · rcases List.mem_cons.mp hd with h | h
        · subst h; exact Or.inl (Or.inr ⟨h1, h2, hfd⟩)
        · exact Or.inr ⟨h1, h2, d, h, hfd⟩

theorem mem_collectDistinct (f : Contact → Option String) (pv : String) (l : List Contact)
    (s : String) :
    s ∈ collectDistinct f pv l ↔ s ≠ "" ∧ s ≠ pv ∧ ∃ c ∈ l, f c = some s := by
  rw [collectDistinct, mem_collectFold]
  simp

theorem nodup_collectFold (f : Contact → Option String) (pv : String) (l : List Contact) :
    ∀ acc : List String, acc.Nodup → (l.foldl (collectStep f pv) acc).Nodup := by
  induction l with
  | nil => intro acc h; exact h
  | cons c l ih =>
    intro acc h
    rw [List.foldl_cons]
    apply ih
    unfold collectStep
    split
    case h_2 hfc => exact h
    case h_1 v hfc =>
      by_cases hcond : (v != "" && v != pv && !(acc.contains v)) = true
      · rw [if_pos hcond]
        simp only [Bool.and_eq_true, Bool.not_eq_true', bne_iff_ne, ne_eq] at hcond
        refine List.Nodup.append h (List.nodup_singleton v) ?_
        intro a ha hb
        rw [List.mem_singleton] at hb
        subst hb
        have hv3 := hcond.2
        rw [List.contains, List.elem_eq_true_of_mem ha] at hv3
        exact absurd hv3 (by simp)
      · rw [if_neg hcond]; exact h

theorem nodup_collectDistinct (f : Contact → Option String) (pv : String) (l : List Contact) :
    (collectDistinct f pv l).Nodup :=
  nodup_collectFold f pv l [] List.nodup_nil

/-! ### Lemmas about `oldestFrom` / `findOldestContact` -/

theorem oldestFrom_mem (rest : List Contact) :
    ∀ c : Contact, oldestFrom c rest ∈ c :: rest := by
  induction rest with
  | nil => intro c; simp [oldestFrom]
  | cons x rest ih =>
    intro c
    have hstep : oldestFrom c (x :: rest)
        = oldestFrom (if x.createdAt < c.createdAt then x else c) rest := rfl
    rw [hstep]
    by_cases hx : x.createdAt < c.createdAt
    · rw [if_pos hx]
      rcases List.mem_cons.mp (ih x) with h1 | h1
      · rw [h1]; exact List.mem_cons_of_mem c (List.mem_cons_self x rest)
      · exact List.mem_cons_of_mem c (List.mem_cons_of_mem x h1)
    · rw [if_neg hx]
      rcases List.mem_cons.mp (ih c) with h1 | h1
      · rw [h1]; exact List.mem_cons_self c (x :: rest)
      · exact List.mem_cons_of_mem c (List.mem_cons_of_mem x h1)

theorem oldestFrom_le (rest : List Contact) :
    ∀ c : Contact, ∀ y ∈ c :: rest, (oldestFrom c rest).createdAt ≤ y.createdAt := by
  induction rest with
  | nil =>
    intro c y hy
    rw [List.mem_singleton] at hy
    subst hy
    simp [oldestFrom]
  | cons x rest ih =>
    intro c y hy
    have hstep : oldestFrom c (x :: rest)
        = oldestFrom (if x.createdAt < c.createdAt then x else c) rest := rfl
    rw [hstep]
    have hhead : (oldestFrom (if x.createdAt < c.createdAt then x else c) rest).createdAt
        ≤ (if x.createdAt < c.createdAt then x else c).createdAt :=
      ih _ _ (List.mem_cons_self _ rest)
    rcases List.mem_cons.mp hy with h1 | h1
    · subst h1
      by_cases hx : x.createdAt < y.createdAt
      · rw [if_pos hx] at hhead ⊢; omega
      · rw [if_neg hx] at hhead ⊢; exact hhead
    · rcases List.mem_cons.mp h1 with h2 | h2
      · subst h2
        by_cases hx : y.createdAt < c.createdAt
        · rw [if_pos hx] at hhead ⊢; exact hhead
        · rw [if_neg hx] at hhead ⊢; omega
      · exact ih _ _ (List.mem_cons_of_mem _ h2)

/-! ### Discovery returns rows of the store -/

theorem insertContact_subset (S : List Contact) (m : List Contact) (c : Contact)
    (hm : ∀ x ∈ m, x ∈ S) (hc : c ∈ S) : ∀ x ∈ insertContact m c, x ∈ S := by
  intro x hx
  unfold insertContact at hx
  split at hx
  · rcases List.mem_map.mp hx with ⟨y, hy, hxy⟩
    by_cases h : (y.id == c.id) = true
    · rw [if_pos h] at hxy; subst hxy; exact hc
    · rw [if_neg h] at hxy; subst hxy; exact hm y hy
  · rcases List.mem_append.mp hx with h | h
    · exact hm x h
    · rw [List.mem_singleton] at h; subst h; exact hc

theorem foldl_insertContact_subset (S : List Contact) (l : List Contact) :
    ∀ m, (∀ x ∈ m, x ∈ S) → (∀ x ∈ l, x ∈ S) →
      ∀ x ∈ l.foldl insertContact m, x ∈ S := by
  induction l with
  | nil => intro m hm _; exact hm
  | cons c l ih =>
    intro m hm hl
    rw [List.foldl_cons]
    exact ih _ (insertContact_subset S m c hm (hl c (List.mem_cons_self c l)))
      (fun x hx => hl x (List.mem_cons_of_mem c hx))

theorem mem_findLinkedContacts (st : Store) (email phoneNumber : Option String) :
    ∀ c ∈ findLinkedContacts st email phoneNumber, c ∈ st.contacts := by
  have hq1 : ∀ s : String, ∀ x ∈ queryContactsByEmail st s, x ∈ st.contacts :=
    fun s x hx => (List.mem_filter.mp hx).1
  have hq2 : ∀ s : String, ∀ x ∈ queryContactsByPhoneNumber st s, x ∈ st.contacts :=
    fun s x hx => (List.mem_filter.mp hx).1
  have hq3 : ∀ i : Nat, ∀ x ∈ queryContactsByLinkedID st i, x ∈ st.contacts :=
    fun i x hx => (List.mem_filter.mp hx).1
  have hstep : ∀ (ids : List Nat) (m : List Contact), (∀ x ∈ m, x ∈ st.contacts) →
      ∀ x ∈ ids.foldl (fun m lid => (queryContactsByLinkedID st lid).foldl insertContact m) m,
        x ∈ st.contacts := by
    intro ids
    induction ids with
    | nil => intro m hm; exact hm
    | cons i ids ih =>
      intro m hm
      rw [List.foldl_cons]
      exact ih _ (foldl_insertContact_subset st.contacts _ _ hm (hq3 i))
  have hm1 : ∀ x ∈ (match email with
      | some e =>
        if e != "" then (queryContactsByEmail st e).foldl insertContact ([] : List Contact)
        else ([] : List Contact)
      | none => ([] : List Contact)), x ∈ st.contacts := by
    cases email with
    | none => intro x hx; cases hx
    | some e =>
      dsimp only
      by_cases hs : (e != "") = true
      · rw [if_pos hs]
        exact foldl_insertContact_subset st.contacts _ _ (fun x hx => absurd hx (List.not_mem_nil x))
          (hq1 e)
      · rw [if_neg hs]
        intro x hx; cases hx
  intro c hc
  unfold findLinkedContacts at hc
  refine hstep _ _ ?_ c hc
  cases phoneNumber with
  | none => exact hm1
  | some p =>
    dsimp only
    by_cases hp : (p != "") = true
    · rw [if_pos hp]
      exact foldl_insertContact_subset st.contacts _ _ hm1 (hq2 p)
    · rw [if_neg hp]
      exact hm1

/-! ### `hasNewInformation` characterization -/

theorem hasNewInformation_iff (cs : List Contact) (email phoneNumber : Option String) :
    hasNewInformation cs email phoneNumber = true ↔
      (∃ s, email = some s ∧ s ≠ "" ∧ ∀ c ∈ cs, c.email ≠ some s)
        ∨ (∃ s, phoneNumber = some s ∧ s ≠ "" ∧ ∀ c ∈ cs, c.phoneNumber ≠ some s) := by
  unfold hasNewInformation
  cases email <;> cases phoneNumber <;>
    simp [List.contains, List.elem_iff, List.mem_filterMap, bne_iff_ne, not_or,
      Bool.or_eq_true, Bool.and_eq_true, Bool.not_eq_true']

/-! ### `reconcilePrimaryStatus` store-shape lemmas -/

theorem updateContactPrecedence_map_id (st : Store) (i : Nat) (pr : String)
    (li : Option Nat) :
    (updateContactPrecedence st i pr li).contacts.map Contact.id
      = st.contacts.map Contact.id := by
  unfold updateContactPrecedence
  rw [List.map_map]
  apply List.map_congr_left
  intro c hc
  by_cases h : (c.id == i) = true <;> simp [Function.comp, h]

theorem mem_updateContactPrecedence_of_ne (st : Store) (i : Nat) (pr : String)
    (li : Option Nat) (x : Contact) (h : x.id ≠ i) (hx : x ∈ st.contacts) :
    x ∈ (updateContactPrecedence st i pr li).contacts := by
  unfold updateContactPrecedence
  refine List.mem_map.mpr ⟨x, hx, ?_⟩
  simp [h]

theorem reconcile_fst_map_id (pid : Nat) (l : List Contact) :
    ∀ acc : Store × Nat,
      ((l.foldl (reconcileStep pid) acc).1).contacts.map Contact.id
        = acc.1.contacts.map Contact.id := by
  induction l with
  | nil => intro acc; rfl
  | cons c l ih =>
    intro acc
    rw [List.foldl_cons, ih]
    unfold reconcileStep
    split
    · split
      · exact updateContactPrecedence_map_id _ _ _ _
      · rfl
    · split
      · exact updateContactPrecedence_map_id _ _ _ _
      · rfl

theorem reconcile_mem_untouched (pid : Nat) (l : List Contact) (x : Contact)
    (hx : ∀ c ∈ l, c.id ≠ x.id) :
    ∀ acc : Store × Nat, x ∈ acc.1.contacts →
      x ∈ ((l.foldl (reconcileStep pid) acc).1).contacts := by
  induction l with
  | nil => intro acc h; exact h
  | cons c l ih =>
    intro acc h
    rw [List.foldl_cons]
    refine ih (fun d hd => hx d (List.mem_cons_of_mem c hd)) _ ?_
    have hne : x.id ≠ c.id := fun he => hx c (List.mem_cons_self c l) he.symm
    unfold reconcileStep
    split
    · split
      · exact mem_updateContactPrecedence_of_ne _ _ _ _ x hne h
      · exact h
    · split
      · exact mem_updateContactPrecedence_of_ne _ _ _ _ x hne h
      · exact h

/-! ### Unfolding equations for `Identify` -/

theorem identify_nil (st : Store) (email phoneNumber : Option String) (now : Nat)
    (h : findLinkedContacts st email phoneNumber = []) :
    Identify st email phoneNumber now =
      (buildResponse
          ⟨st.contacts ++ [⟨st.nextId, phoneNumber, email, none, "primary", now, none⟩],
           st.nextId + 1⟩ st.nextId,
       ⟨st.contacts ++ [⟨st.nextId, phoneNumber, email, none, "primary", now, none⟩],
        st.nextId + 1⟩) := by
  unfold Identify
  rw [h]
  rfl

theorem identify_cons (st : Store) (email phoneNumber : Option String) (now : Nat)
    (c : Contact) (rest : List Contact)
    (h : findLinkedContacts st email phoneNumber = c :: rest) :
    Identify st email phoneNumber now =
      (buildResponse
          ((reconcilePrimaryStatus
              (if hasNewInformation (c :: rest) email phoneNumber then
                (createSecondaryContact st email phoneNumber (oldestFrom c rest).id now).2
              else st)
              (c :: rest) (oldestFrom c rest).id).1)
          (oldestFrom c rest).id,
       (reconcilePrimaryStatus
          (if hasNewInformation (c :: rest) email phoneNumber then
            (createSecondaryContact st email phoneNumber (oldestFrom c rest).id now).2
          else st)
          (c :: rest) (oldestFrom c rest).id).1) := by
  unfold Identify
  rw [h]

/-- The filter of `getAllLinkedContacts` over a freshly inserted primary:
no pre-existing row carries the fresh id. -/
theorem getAllLinkedContacts_fresh (st : Store) (nc : Contact) (n : Nat)
    (hwf : ∀ c ∈ st.contacts, c.id ≠ nc.id ∧ c.linkedId ≠ some nc.id)
    (hdel : nc.deletedAt = none) :
    getAllLinkedContacts ⟨st.contacts ++ [nc], n⟩ nc.id = [nc] := by
  rw [getAllLinkedContacts, List.filter_append]
  have h1 : st.contacts.filter (fun c =>
      (c.id == nc.id || c.linkedId == some nc.id) && c.deletedAt == none) = [] := by
    rw [List.filter_eq_nil_iff]
    intro c hc
    have := hwf c hc
    simp only [Bool.and_eq_true, Bool.or_eq_true, beq_iff_eq]
    rintro ⟨h2 | h2, h3⟩
    · exact this.1 h2
    · exact this.2 h2
  have h2 : List.filter (fun c =>
      (c.id == nc.id || c.linkedId == some nc.id) && c.deletedAt == none) [nc] = [nc] := by
    simp [hdel]
  rw [h1, h2, List.nil_append]

/-! ### Claim theorems -/

/-- Claim C1 (code bug evaluation).  Starting from the empty store, the
four successful calls `Identify("p@x","100")`, `Identify("q@x","200")`,
`Identify("x@x","200")`, `Identify("q@x","100")` leave record 3 with
`precedence = secondary` and `linkedId = 2`, while record 2 itself has
been demoted to `precedence = secondary` with `linkedId = 1`: a
secondary points at another secondary, so the claimed single-primary
invariant does not hold after every sequence of successful calls. -/
theorem c1_secondary_chain_after_identify_sequence :
    let s1 : Store := (Identify ⟨[], 1⟩ (some "p@x") (some "100") 1).2
    let s2 : Store := (Identify s1 (some "q@x") (some "200") 2).2
    let s3 : Store := (Identify s2 (some "x@x") (some "200") 3).2
    let s4 : Store := (Identify s3 (some "q@x") (some "100") 4).2
    (getContactById s4 3).map (fun c => (c.linkPrecedence, c.linkedId))
        = some ("secondary", some 2)
      ∧ (getContactById s4 2).map (fun c => (c.linkPrecedence, c.linkedId))
        = some ("secondary", some 1)
      ∧ (getContactById s4 1).map (fun c => (c.linkPrecedence, c.linkedId))
        = some ("primary", none) := by
  decide

/-- Claim C2 (code bug evaluation).  With primary `A` (id 1, older),
primary `B` (id 2, newer) and a pre-existing secondary of `B` (id 3,
email `b@x`, phone `300`, linkedId 2), the call
`Identify(A.email = "a@x", B.phone = "200")` demotes `B` under `A` but
leaves `B`'s secondary with `linkedId = 2`, not re-parented to `A.id`
as the claim requires. -/
theorem c2_merge_leaves_stale_secondary :
    let st : Store :=
      ⟨[⟨1, some "100", some "a@x", none, "primary", 1, none⟩,
        ⟨2, some "200", some "b@x", none, "primary", 2, none⟩,
        ⟨3, some "300", some "b@x", some 2, "secondary", 3, none⟩], 4⟩
    let r := (Identify st (some "a@x") (some "200") 4).2
    (getContactById r 2).map (fun c => (c.linkPrecedence, c.linkedId))
        = some ("secondary", some 1)
      ∧ (getContactById r 3).map (fun c => (c.linkPrecedence, c.linkedId))
        = some ("secondary", some 2) := by
  decide

/-- Claim C3 (code bug evaluation).  Store: primary id 1 and its
secondary id 2 (`linkedId = 1`).  `Identify(email = "b@x")` matches only
the secondary; the distinct linkedId 1 is found, yet the touched set the
code computes is just the secondary itself: the non-deleted root record
with `id = 1` is not fetched, because `queryContactsByLinkedID` selects
only `linked_id = 1` and never `id = 1`. -/
theorem c3_discovery_misses_group_root :
    let st : Store :=
      ⟨[⟨1, some "111", some "a@x", none, "primary", 1, none⟩,
        ⟨2, some "111", some "b@x", some 1, "secondary", 2, none⟩], 3⟩
    (findLinkedContacts st (some "b@x") none).map Contact.id = [2]
      ∧ (findLinkedContacts st (some "b@x") none).all (fun c => c.linkedId == some 1)
      ∧ (getContactById st 1).map (fun c => (c.linkedId, c.deletedAt)) = some (none, none) := by
  decide

/-- Claim C4 counterexample.  Two records share the earliest
`createdAt`; the slice arrives with the larger id first and
`findOldestContact` returns id 2, not the smallest id 1: the code has no
id tie-break. -/
theorem c4_tie_not_smallest_id :
    (findOldestContact
        [⟨2, none, none, none, "primary", 5, none⟩,
         ⟨1, none, none, none, "primary", 5, none⟩]).map Contact.id = some 2
      ∧ (⟨2, none, none, none, "primary", 5, none⟩ : Contact).createdAt
        = (⟨1, none, none, none, "primary", 5, none⟩ : Contact).createdAt := by
  decide

/-- Claim C4, amended.  For every non-empty slice, `findOldestContact`
selects a record of the slice with the earliest `createdAt`; among
records sharing the earliest `createdAt`, the selection depends on the
slice order (and is not the smallest id in general). -/
theorem c4_oldest_has_earliest_createdAt (c : Contact) (rest : List Contact) :
    ∃ p, findOldestContact (c :: rest) = some p ∧ p ∈ c :: rest ∧
      ∀ y ∈ c :: rest, p.createdAt ≤ y.createdAt :=
  ⟨oldestFrom c rest, rfl, oldestFrom_mem rest c, oldestFrom_le rest c⟩

/-- The singleton-group projection of a supplied optional value: the
value itself when present and non-empty, else nothing. -/
def suppliedValues (v : Option String) : List String :=
  match v with
  | some s => if s != "" then [s] else []
  | none => []

/-- `buildResponse` on a store whose fetched group is a single row that
carries the primary id. -/
theorem buildResponse_single (st2 : Store) (pid : Nat) (nc : Contact)
    (hid : nc.id = pid)
    (hfetch : getAllLinkedContacts st2 pid = [nc]) :
    buildResponse st2 pid =
      { primaryContactId := pid,
        emails := suppliedValues nc.email,
        phoneNumbers := suppliedValues nc.phoneNumber,
        secondaryContactIds := [] } := by
  unfold buildResponse
  rw [hfetch]
  subst hid
  cases he : nc.email <;> cases hp : nc.phoneNumber <;>
    simp [primaryField, collectDistinct, collectStep, suppliedValues, he, hp]

/-- Claim C6.  When discovery finds no existing records, exactly one new
record is created: a primary with null `linkedId` carrying the supplied
email/phone; the response is the singleton group with the new id, the
supplied non-empty values, and no secondary ids. -/
theorem c6_no_match_creates_singleton_primary (st : Store)
    (email phoneNumber : Option String) (now : Nat)
    (hwf : ∀ c ∈ st.contacts, c.id ≠ st.nextId ∧ c.linkedId ≠ some st.nextId)
    (hnone : findLinkedContacts st email phoneNumber = []) :
    (Identify st email phoneNumber now).2.contacts
        = st.contacts ++ [⟨st.nextId, phoneNumber, email, none, "primary", now, none⟩]
      ∧ (Identify st email phoneNumber now).1
        = { primaryContactId := st.nextId,
            emails := suppliedValues email,
            phoneNumbers := suppliedValues phoneNumber,
            secondaryContactIds := [] } := by
  rw [identify_nil st email phoneNumber now hnone]
  refine ⟨rfl, ?_⟩
  have h := buildResponse_single
    ⟨st.contacts ++ [⟨st.nextId, phoneNumber, email, none, "primary", now, none⟩],
     st.nextId + 1⟩ st.nextId
    ⟨st.nextId, phoneNumber, email, none, "primary", now, none⟩ rfl
    (getAllLinkedContacts_fresh st
      ⟨st.nextId, phoneNumber, email, none, "primary", now, none⟩ (st.nextId + 1) hwf rfl)
  rw [h]

/-- Witness for C6: `Identify(email = "u@x.com", phone = "111")` on the
empty store. -/
theorem c6_witness :
    ((⟨[], 1⟩ : Store).contacts.all
        (fun c => !(c.id == (1 : Nat)) && !(c.linkedId == some 1)) = true)
      ∧ findLinkedContacts ⟨[], 1⟩ (some "u@x.com") (some "111") = []
      ∧ (Identify ⟨[], 1⟩ (some "u@x.com") (some "111") 1).2.contacts
          = [⟨1, some "111", some "u@x.com", none, "primary", 1, none⟩]
      ∧ (Identify ⟨[], 1⟩ (some "u@x.com") (some "111") 1).1
          = { primaryContactId := 1, emails := ["u@x.com"], phoneNumbers := ["111"],
              secondaryContactIds := [] } := by
  have h := c6_no_match_creates_singleton_primary ⟨[], 1⟩ (some "u@x.com") (some "111") 1
    (by decide) (by decide)
  exact ⟨by decide, by decide, h.1, h.2⟩

/-- Claim C8.  When the supplied email and phone are both absent or
empty, the handler rejects the request with `InvalidInput` before
invoking the reconciliation service: the store is returned untouched. -/
theorem c8_invalid_input_rejected_without_store_access (st : Store)
    (email phoneNumber : Option String) (now : Nat)
    (he : email = none ∨ email = some "") (hp : phoneNumber = none ∨ phoneNumber = some "") :
    Handle st email phoneNumber now = (Except.error HandlerError.invalidInput, st) := by
  rcases he with he | he <;> rcases hp with hp | hp <;> subst he <;> subst hp <;> rfl

/-- Witness for C8 at `email = none`, `phoneNumber = some ""` on a
one-row store. -/
theorem c8_witness :
    Handle ⟨[⟨1, some "1", some "a", none, "primary", 1, none⟩], 2⟩ none (some "") 7
      = (Except.error HandlerError.invalidInput,
         ⟨[⟨1, some "1", some "a", none, "primary", 1, none⟩], 2⟩) :=
  c8_invalid_input_rejected_without_store_access _ none (some "") 7 (Or.inl rfl) (Or.inr rfl)

/-- Claim C10.  An empty-string email or phone behaves exactly like an
absent one: discovery runs the same queries (none for that field), it
never counts as new information, and the empty string never occurs in a
response's `emails` or `phoneNumbers`. -/
theorem c10_empty_string_like_absent :
    (∀ st p, findLinkedContacts st (some "") p = findLinkedContacts st none p)
      ∧ (∀ st e, findLinkedContacts st e (some "") = findLinkedContacts st e none)
      ∧ (∀ cs p, hasNewInformation cs (some "") p = hasNewInformation cs none p)
      ∧ (∀ cs e, hasNewInformation cs e (some "") = hasNewInformation cs e none)
      ∧ (∀ st pid, "" ∉ (buildResponse st pid).emails ∧ "" ∉ (buildResponse st pid).phoneNumbers) := by
  refine ⟨fun st p => rfl, fun st e => rfl, fun cs p => rfl, fun cs e => rfl, fun st pid => ⟨?_, ?_⟩⟩
  · intro hmem
    rw [buildResponse] at hmem
    simp only [List.mem_append] at hmem
    rcases hmem with h | h
    · by_cases hc : (primaryField (fun c => c.email) pid (getAllLinkedContacts st pid)) != ""
      · rw [if_pos hc] at h
        rw [List.mem_singleton] at h
        rw [← h] at hc
        simp at hc
      · rw [if_neg hc] at h
        exact absurd h (List.not_mem_nil "")
    · exact absurd ((mem_collectDistinct _ _ _ "").mp h).1 (by simp)
  · intro hmem
    rw [buildResponse] at hmem
    simp only [List.mem_append] at hmem
    rcases hmem with h | h
    · by_cases hc : (primaryField (fun c => c.phoneNumber) pid (getAllLinkedContacts st pid)) != ""
      · rw [if_pos hc] at h
        rw [List.mem_singleton] at h
        rw [← h] at hc
        simp at hc
      · rw [if_neg hc] at h
        exact absurd h (List.not_mem_nil "")
    · exact absurd ((mem_collectDistinct _ _ _ "").mp h).1 (by simp)

/-- Claim C5.  With a non-empty touched set, a new secondary record
(carrying the supplied email and phone, linked to the selected primary's
id) is created precisely when the supplied email (present, non-empty) is
on no record of the touched set or the supplied phone (present,
non-empty) is on no record of the touched set; otherwise the store keeps
exactly the same row ids. -/
theorem c5_secondary_created_iff_new_information (st : Store)
    (email phoneNumber : Option String) (now : Nat) (c : Contact) (rest : List Contact)
    (hwf : ∀ x ∈ st.contacts, x.id < st.nextId)
    (h : findLinkedContacts st email phoneNumber = c :: rest) :
    (((∃ s, email = some s ∧ s ≠ "" ∧ ∀ x ∈ c :: rest, x.email ≠ some s)
        ∨ (∃ s, phoneNumber = some s ∧ s ≠ "" ∧ ∀ x ∈ c :: rest, x.phoneNumber ≠ some s)) →
      (Identify st email phoneNumber now).2.contacts.length = st.contacts.length + 1
        ∧ (⟨st.nextId, phoneNumber, email, some (oldestFrom c rest).id,
            "secondary", now, none⟩ : Contact) ∈ (Identify st email phoneNumber now).2.contacts
        ∧ findOldestContact (c :: rest) = some (oldestFrom c rest))
    ∧ (¬ ((∃ s, email = some s ∧ s ≠ "" ∧ ∀ x ∈ c :: rest, x.email ≠ some s)
        ∨ (∃ s, phoneNumber = some s ∧ s ≠ "" ∧ ∀ x ∈ c :: rest, x.phoneNumber ≠ some s)) →
      (Identify st email phoneNumber now).2.contacts.map Contact.id
        = st.contacts.map Contact.id) := by
  rw [identify_cons st email phoneNumber now c rest h]
  have hlen : ∀ st1 : Store,
      ((reconcilePrimaryStatus st1 (c :: rest) (oldestFrom c rest).id).1).contacts.map Contact.id
        = st1.contacts.map Contact.id :=
    fun st1 => reconcile_fst_map_id (oldestFrom c rest).id (c :: rest) (st1, 0)
  constructor
  · intro hcond
    have hni : hasNewInformation (c :: rest) email phoneNumber = true :=
      (hasNewInformation_iff (c :: rest) email phoneNumber).mpr hcond
    rw [hni]
    simp only [if_true]
    refine ⟨?_, ?_, rfl⟩
    · have h1 := hlen (createSecondaryContact st email phoneNumber (oldestFrom c rest).id now).2
      have h2 := congrArg List.length h1
      rw [List.length_map, List.length_map] at h2
      rw [h2]
      exact List.length_append st.contacts _
    · apply reconcile_mem_untouched
      · intro y hy hid
        have hmem := mem_findLinkedContacts st email phoneNumber y (h ▸ hy)
        have hlt := hwf y hmem
        exact absurd hid (Nat.ne_of_lt hlt)
      · exact List.mem_append_right st.contacts (List.mem_singleton_self _)
  · intro hcond
    have hni : hasNewInformation (c :: rest) email phoneNumber = false :=
      Bool.eq_false_iff.mpr
        (fun hx => hcond ((hasNewInformation_iff (c :: rest) email phoneNumber).mp hx))
    rw [hni]
    simp only [Bool.false_eq_true, if_false]
    exact hlen st

/-- Witness for C5: a one-row store (id 1, email `u@x`, phone `111`);
`Identify(email = "v@x", phone = "111")` carries a new email, so a
secondary row is created under the matched primary. -/
theorem c5_witness :
    ((⟨[⟨1, some "111", some "u@x", none, "primary", 1, none⟩], 2⟩ : Store).contacts.all
        (fun x => x.id < 2) = true)
      ∧ findLinkedContacts ⟨[⟨1, some "111", some "u@x", none, "primary", 1, none⟩], 2⟩
          (some "v@x") (some "111")
        = [⟨1, some "111", some "u@x", none, "primary", 1, none⟩]
      ∧ (((∃ s, (some "v@x" : Option String) = some s ∧ s ≠ "" ∧
            ∀ x ∈ [(⟨1, some "111", some "u@x", none, "primary", 1, none⟩ : Contact)],
              x.email ≠ some s)
          ∨ (∃ s, (some "111" : Option String) = some s ∧ s ≠ "" ∧
            ∀ x ∈ [(⟨1, some "111", some "u@x", none, "primary", 1, none⟩ : Contact)],
              x.phoneNumber ≠ some s)) →
        (Identify ⟨[⟨1, some "111", some "u@x", none, "primary", 1, none⟩], 2⟩
            (some "v@x") (some "111") 2).2.contacts.length
          = (⟨[⟨1, some "111", some "u@x", none, "primary", 1, none⟩], 2⟩ : Store).contacts.length + 1
        ∧ (⟨2, some "111", some "v@x",
              some (oldestFrom ⟨1, some "111", some "u@x", none, "primary", 1, none⟩ []).id,
              "secondary", 2, none⟩ : Contact)
            ∈ (Identify ⟨[⟨1, some "111", some "u@x", none, "primary", 1, none⟩], 2⟩
                (some "v@x") (some "111") 2).2.contacts
        ∧ findOldestContact [(⟨1, some "111", some "u@x", none, "primary", 1, none⟩ : Contact)]
            = some (oldestFrom ⟨1, some "111", some "u@x", none, "primary", 1, none⟩ [])) := by
  refine ⟨by decide, by decide, ?_⟩
  exact (c5_secondary_created_iff_new_information
    ⟨[⟨1, some "111", some "u@x", none, "primary", 1, none⟩], 2⟩
    (some "v@x") (some "111") 2 ⟨1, some "111", some "u@x", none, "primary", 1, none⟩ []
    (by decide) (by decide)).1

theorem primaryFold_stay (g : Contact → Option String) (pid : Nat) (pc : Contact) (v : String)
    (hg : g pc = some v) :
    ∀ l : List Contact, (∀ c ∈ l, c.id = pid → c = pc) →
      l.foldl (fun a c => if c.id == pid then (match g c with | some w => w | none => a) else a) v
        = v := by
  intro l
  induction l with
  | nil => intro _; rfl
  | cons x l ih =>
    intro hu
    rw [List.foldl_cons]
    by_cases hx : (x.id == pid) = true
    · have hxe : x = pc := hu x (List.mem_cons_self x l) (beq_iff_eq.mp hx)
      subst hxe
      rw [if_pos hx, hg]
      exact ih (fun d hd h => hu d (List.mem_cons_of_mem x hd) h)
    · rw [if_neg hx]
      exact ih (fun d hd h => hu d (List.mem_cons_of_mem x hd) h)

theorem primaryFold_none (g : Contact → Option String) (pid : Nat) (pc : Contact)
    (hg : g pc = none) :
    ∀ (l : List Contact) (acc : String), (∀ c ∈ l, c.id = pid → c = pc) →
      l.foldl (fun a c => if c.id == pid then (match g c with | some w => w | none => a) else a) acc
        = acc := by
  intro l
  induction l with
  | nil => intro acc _; rfl
  | cons x l ih =>
    intro acc hu
    rw [List.foldl_cons]
    by_cases hx : (x.id == pid) = true
    · have hxe : x = pc := hu x (List.mem_cons_self x l) (beq_iff_eq.mp hx)
      subst hxe
      rw [if_pos hx, hg]
      exact ih acc (fun d hd h => hu d (List.mem_cons_of_mem x hd) h)
    · rw [if_neg hx]
      exact ih acc (fun d hd h => hu d (List.mem_cons_of_mem x hd) h)

/-- The `primaryEmail` / `primaryPhone` loop result when the fetched
slice holds the primary row (unique by id): the primary's own field
value, `""` for a nil pointer. -/
theorem primaryField_eq (g : Contact → Option String) (pid : Nat) (pc : Contact)
    (hpc : pc.id = pid) :
    ∀ l : List Contact, pc ∈ l → (∀ c ∈ l, c.id = pid → c = pc) →
      primaryField g pid l = (g pc).getD "" := by
  intro l
  unfold primaryField
  generalize "" = acc
  induction l generalizing acc with
  | nil => intro hmem _; cases hmem
  | cons x l ih =>
    intro hmem hu
    rw [List.foldl_cons]
    by_cases hx : (x.id == pid) = true
    · have hxe : x = pc := hu x (List.mem_cons_self x l) (beq_iff_eq.mp hx)
      subst hxe
      rw [if_pos hx]
      cases hg : g x with
      | some v =>
        exact primaryFold_stay g pid x v hg l (fun d hd h => hu d (List.mem_cons_of_mem x hd) h)
      | none =>
        exact primaryFold_none g pid x hg l acc (fun d hd h => hu d (List.mem_cons_of_mem x hd) h)
    · rw [if_neg hx]
      have hmem2 : pc ∈ l := by
        rcases List.mem_cons.mp hmem with h1 | h1
        · exfalso
          rw [← h1] at hx
          exact hx (beq_iff_eq.mpr hpc)
        · exact h1
      exact ih acc hmem2 (fun d hd h => hu d (List.mem_cons_of_mem x hd) h)

/-- Claim C9.  For the group fetched at the primary id: the primary's
non-empty email/phone is the first output element, the remaining
elements are exactly the distinct other non-empty emails/phones of the
group (each once), and `secondaryContactIds` is exactly the ids of the
fetched non-primary rows. -/
theorem c9_response_projection (st : Store) (pid : Nat) (pc : Contact)
    (hpc : pc.id = pid)
    (hmem : pc ∈ getAllLinkedContacts st pid)
    (huniq : ∀ c ∈ getAllLinkedContacts st pid, c.id = pid → c = pc) :
    ((buildResponse st pid).emails
        = (if (pc.email.getD "") != "" then [pc.email.getD ""] else [])
          ++ collectDistinct (fun c => c.email) (pc.email.getD "") (getAllLinkedContacts st pid))
      ∧ (∀ s, s ∈ collectDistinct (fun c => c.email) (pc.email.getD "") (getAllLinkedContacts st pid)
          ↔ s ≠ "" ∧ s ≠ pc.email.getD ""
              ∧ ∃ c ∈ getAllLinkedContacts st pid, c.email = some s)
      ∧ (collectDistinct (fun c => c.email) (pc.email.getD "") (getAllLinkedContacts st pid)).Nodup
      ∧ ((buildResponse st pid).phoneNumbers
        = (if (pc.phoneNumber.getD "") != "" then [pc.phoneNumber.getD ""] else [])
          ++ collectDistinct (fun c => c.phoneNumber) (pc.phoneNumber.getD "")
              (getAllLinkedContacts st pid))
      ∧ (∀ s, s ∈ collectDistinct (fun c => c.phoneNumber) (pc.phoneNumber.getD "")
              (getAllLinkedContacts st pid)
          ↔ s ≠ "" ∧ s ≠ pc.phoneNumber.getD ""
              ∧ ∃ c ∈ getAllLinkedContacts st pid, c.phoneNumber = some s)
      ∧ (collectDistinct (fun c => c.phoneNumber) (pc.phoneNumber.getD "")
          (getAllLinkedContacts st pid)).Nodup
      ∧ (buildResponse st pid).secondaryContactIds
        = ((getAllLinkedContacts st pid).filter (fun c => !(c.id == pid))).map (fun c => c.id) := by
  have he := primaryField_eq (fun c => c.email) pid pc hpc (getAllLinkedContacts st pid) hmem huniq
  have hp := primaryField_eq (fun c => c.phoneNumber) pid pc hpc (getAllLinkedContacts st pid)
    hmem huniq
  refine ⟨?_, fun s => mem_collectDistinct _ _ _ s, nodup_collectDistinct _ _ _,
    ?_, fun s => mem_collectDistinct _ _ _ s, nodup_collectDistinct _ _ _, ?_⟩
  · show (if primaryField (fun c => c.email) pid (getAllLinkedContacts st pid) != "" then
        [primaryField (fun c => c.email) pid (getAllLinkedContacts st pid)] else [])
      ++ collectDistinct (fun c => c.email)
          (primaryField (fun c => c.email) pid (getAllLinkedContacts st pid))
          (getAllLinkedContacts st pid) = _
    rw [he]
  · show (if primaryField (fun c => c.phoneNumber) pid (getAllLinkedContacts st pid) != "" then
        [primaryField (fun c => c.phoneNumber) pid (getAllLinkedContacts st pid)] else [])
      ++ collectDistinct (fun c => c.phoneNumber)
          (primaryField (fun c => c.phoneNumber) pid (getAllLinkedContacts st pid))
          (getAllLinkedContacts st pid) = _
    rw [hp]
  · rfl

/-- Witness for C9 on a three-row group: primary id 1 with email
`a@x` / phone `111`, two secondaries repeating email `b@x` and phone
`222`. -/
theorem c9_witness :
    ((⟨1, some "111", some "a@x", none, "primary", 1, none⟩ : Contact) ∈ getAllLinkedContacts (⟨[⟨1, some "111", some "a@x", none, "primary", 1, none⟩, ⟨2, some "222", some "b@x", some 1, "secondary", 2, none⟩, ⟨3, some "222", some "b@x", some 1, "secondary", 3, none⟩], 4⟩ : Store) 1)
      ∧ ((getAllLinkedContacts (⟨[⟨1, some "111", some "a@x", none, "primary", 1, none⟩, ⟨2, some "222", some "b@x", some 1, "secondary", 2, none⟩, ⟨3, some "222", some "b@x", some 1, "secondary", 3, none⟩], 4⟩ : Store) 1).all
          (fun c => !(c.id == 1) || (c == (⟨1, some "111", some "a@x", none, "primary", 1, none⟩ : Contact))) = true)
      ∧ ((buildResponse (⟨[⟨1, some "111", some "a@x", none, "primary", 1, none⟩, ⟨2, some "222", some "b@x", some 1, "secondary", 2, none⟩, ⟨3, some "222", some "b@x", some 1, "secondary", 3, none⟩], 4⟩ : Store) 1).emails
          = (if ((⟨1, some "111", some "a@x", none, "primary", 1, none⟩ : Contact).email.getD "") != "" then [(⟨1, some "111", some "a@x", none, "primary", 1, none⟩ : Contact).email.getD ""] else [])
            ++ collectDistinct (fun c => c.email) ((⟨1, some "111", some "a@x", none, "primary", 1, none⟩ : Contact).email.getD "") (getAllLinkedContacts (⟨[⟨1, some "111", some "a@x", none, "primary", 1, none⟩, ⟨2, some "222", some "b@x", some 1, "secondary", 2, none⟩, ⟨3, some "222", some "b@x", some 1, "secondary", 3, none⟩], 4⟩ : Store) 1))
      ∧ (∀ s, s ∈ collectDistinct (fun c => c.email) ((⟨1, some "111", some "a@x", none, "primary", 1, none⟩ : Contact).email.getD "") (getAllLinkedContacts (⟨[⟨1, some "111", some "a@x", none, "primary", 1, none⟩, ⟨2, some "222", some "b@x", some 1, "secondary", 2, none⟩, ⟨3, some "222", some "b@x", some 1, "secondary", 3, none⟩], 4⟩ : Store) 1)
          ↔ s ≠ "" ∧ s ≠ (⟨1, some "111", some "a@x", none, "primary", 1, none⟩ : Contact).email.getD ""
              ∧ ∃ c ∈ getAllLinkedContacts (⟨[⟨1, some "111", some "a@x", none, "primary", 1, none⟩, ⟨2, some "222", some "b@x", some 1, "secondary", 2, none⟩, ⟨3, some "222", some "b@x", some 1, "secondary", 3, none⟩], 4⟩ : Store) 1, c.email = some s)
      ∧ (collectDistinct (fun c => c.email) ((⟨1, some "111", some "a@x", none, "primary", 1, none⟩ : Contact).email.getD "") (getAllLinkedContacts (⟨[⟨1, some "111", some "a@x", none, "primary", 1, none⟩, ⟨2, some "222", some "b@x", some 1, "secondary", 2, none⟩, ⟨3, some "222", some "b@x", some 1, "secondary", 3, none⟩], 4⟩ : Store) 1)).Nodup
      ∧ ((buildResponse (⟨[⟨1, some "111", some "a@x", none, "primary", 1, none⟩, ⟨2, some "222", some "b@x", some 1, "secondary", 2, none⟩, ⟨3, some "222", some "b@x", some 1, "secondary", 3, none⟩], 4⟩ : Store) 1).phoneNumbers
          = (if ((⟨1, some "111", some "a@x", none, "primary", 1, none⟩ : Contact).phoneNumber.getD "") != "" then [(⟨1, some "111", some "a@x", none, "primary", 1, none⟩ : Contact).phoneNumber.getD ""] else [])
            ++ collectDistinct (fun c => c.phoneNumber) ((⟨1, some "111", some "a@x", none, "primary", 1, none⟩ : Contact).phoneNumber.getD "") (getAllLinkedContacts (⟨[⟨1, some "111", some "a@x", none, "primary", 1, none⟩, ⟨2, some "222", some "b@x", some 1, "secondary", 2, none⟩, ⟨3, some "222", some "b@x", some 1, "secondary", 3, none⟩], 4⟩ : Store) 1))
      ∧ (∀ s, s ∈ collectDistinct (fun c => c.phoneNumber) ((⟨1, some "111", some "a@x", none, "primary", 1, none⟩ : Contact).phoneNumber.getD "") (getAllLinkedContacts (⟨[⟨1, some "111", some "a@x", none, "primary", 1, none⟩, ⟨2, some "222", some "b@x", some 1, "secondary", 2, none⟩, ⟨3, some "222", some "b@x", some 1, "secondary", 3, none⟩], 4⟩ : Store) 1)
          ↔ s ≠ "" ∧ s ≠ (⟨1, some "111", some "a@x", none, "primary", 1, none⟩ : Contact).phoneNumber.getD ""
              ∧ ∃ c ∈ getAllLinkedContacts (⟨[⟨1, some "111", some "a@x", none, "primary", 1, none⟩, ⟨2, some "222", some "b@x", some 1, "secondary", 2, none⟩, ⟨3, some "222", some "b@x", some 1, "secondary", 3, none⟩], 4⟩ : Store) 1, c.phoneNumber = some s)
      ∧ (collectDistinct (fun c => c.phoneNumber) ((⟨1, some "111", some "a@x", none, "primary", 1, none⟩ : Contact).phoneNumber.getD "") (getAllLinkedContacts (⟨[⟨1, some "111", some "a@x", none, "primary", 1, none⟩, ⟨2, some "222", some "b@x", some 1, "secondary", 2, none⟩, ⟨3, some "222", some "b@x", some 1, "secondary", 3, none⟩], 4⟩ : Store) 1)).Nodup
      ∧ (buildResponse (⟨[⟨1, some "111", some "a@x", none, "primary", 1, none⟩, ⟨2, some "222", some "b@x", some 1, "secondary", 2, none⟩, ⟨3, some "222", some "b@x", some 1, "secondary", 3, none⟩], 4⟩ : Store) 1).secondaryContactIds
          = ((getAllLinkedContacts (⟨[⟨1, some "111", some "a@x", none, "primary", 1, none⟩, ⟨2, some "222", some "b@x", some 1, "secondary", 2, none⟩, ⟨3, some "222", some "b@x", some 1, "secondary", 3, none⟩], 4⟩ : Store) 1).filter (fun c => !(c.id == 1))).map (fun c => c.id) := by
  have h := c9_response_projection (⟨[⟨1, some "111", some "a@x", none, "primary", 1, none⟩, ⟨2, some "222", some "b@x", some 1, "secondary", 2, none⟩, ⟨3, some "222", some "b@x", some 1, "secondary", 3, none⟩], 4⟩ : Store) 1 (⟨1, some "111", some "a@x", none, "primary", 1, none⟩ : Contact) rfl (by decide)
    (by
      intro c hc hid
      have hall : ((getAllLinkedContacts (⟨[⟨1, some "111", some "a@x", none, "primary", 1, none⟩, ⟨2, some "222", some "b@x", some 1, "secondary", 2, none⟩, ⟨3, some "222", some "b@x", some 1, "secondary", 3, none⟩], 4⟩ : Store) 1).all
          (fun c => !(c.id == 1) || (c == (⟨1, some "111", some "a@x", none, "primary", 1, none⟩ : Contact))) = true) := by decide
      have h2 := List.all_eq_true.mp hall c hc
      rcases (Bool.or_eq_true _ _).mp h2 with h3 | h3
      · exfalso
        simp only [Bool.not_eq_true', beq_eq_false_iff_ne, ne_eq] at h3
        exact h3 hid
      · exact beq_iff_eq.mp h3)
  exact ⟨by decide, by decide, h.1, h.2.1, h.2.2.1, h.2.2.2.1, h.2.2.2.2.1, h.2.2.2.2.2.1,
    h.2.2.2.2.2.2⟩

/-! ### Idempotence machinery for `reconcilePrimaryStatus` -/

/-- The skip test of the reconcile loop: the row is already in its
target state, so no UPDATE is issued for it. -/
def skipReconcile (primaryID : Nat) (c : Contact) : Bool :=
  if c.id == primaryID then c.linkPrecedence == "primary"
  else c.linkPrecedence == "secondary" && c.linkedId == some primaryID

/-- The store effect of one reconcile iteration, without the write
counter. -/
def applyReconcile (primaryID : Nat) (st : Store) (c : Contact) : Store :=
  if c.id == primaryID then
    if c.linkPrecedence != "primary" then
      updateContactPrecedence st c.id "primary" none
    else st
  else
    if c.linkPrecedence != "secondary" || c.linkedId == none || !(c.linkedId == some primaryID) then
      updateContactPrecedence st c.id "secondary" (some primaryID)
    else st

theorem reconcileStep_fst (pid : Nat) (acc : Store × Nat) (c : Contact) :
    (reconcileStep pid acc c).1 = applyReconcile pid acc.1 c := by
  unfold reconcileStep applyReconcile
  by_cases h1 : (c.id == pid) = true <;>
    by_cases h2 : (c.linkPrecedence != "primary") = true <;>
    by_cases h3 : (c.linkPrecedence != "secondary" || c.linkedId == none
      || !(c.linkedId == some pid)) = true <;>
    simp [h1, h2, h3]

theorem reconcileStep_of_skip (pid : Nat) (acc : Store × Nat) (c : Contact)
    (h : skipReconcile pid c = true) :
    reconcileStep pid acc c = acc := by
  unfold skipReconcile at h
  unfold reconcileStep
  by_cases h1 : (c.id == pid) = true
  · rw [if_pos h1] at h
    rw [if_pos h1]
    rw [if_neg (by simp [bne, h])]
  · rw [if_neg h1] at h
    rw [if_neg h1]
    rw [Bool.and_eq_true] at h
    obtain ⟨ha, hb⟩ := h
    have hbe : c.linkedId = some pid := beq_iff_eq.mp hb
    rw [if_neg (by simp [bne, ha, hbe])]

theorem reconcile_skip_all (pid : Nat) (l : List Contact)
    (h : ∀ c ∈ l, skipReconcile pid c = true) :
    ∀ acc : Store × Nat, l.foldl (reconcileStep pid) acc = acc := by
  induction l with
  | nil => intro acc; rfl
  | cons c l ih =>
    intro acc
    rw [List.foldl_cons, reconcileStep_of_skip pid acc c (h c (List.mem_cons_self c l))]
    exact ih (fun d hd => h d (List.mem_cons_of_mem c hd)) acc

theorem reconcile_fold_fst (pid : Nat) (l : List Contact) :
    ∀ acc : Store × Nat,
      (l.foldl (reconcileStep pid) acc).1 = l.foldl (applyReconcile pid) acc.1 := by
  induction l with
  | nil => intro acc; rfl
  | cons c l ih =>
    intro acc
    rw [List.foldl_cons, List.foldl_cons, ih, reconcileStep_fst]

theorem getContactById_update (st : Store) (i : Nat) (pr : String) (li : Option Nat) (j : Nat) :
    getContactById (updateContactPrecedence st i pr li) j
      = (getContactById st j).map
          (fun c => if c.id == i then { c with linkPrecedence := pr, linkedId := li } else c) := by
  unfold getContactById updateContactPrecedence
  rw [List.find?_map]
  have hp : ((fun c : Contact => c.id == j) ∘ (fun c : Contact =>
      if c.id == i then { c with linkPrecedence := pr, linkedId := li } else c))
      = (fun c : Contact => c.id == j) := by
    funext c
    by_cases h : (c.id == i) = true <;> simp [Function.comp, h]
  rw [hp]

theorem getContactById_update_ne (st : Store) (i : Nat) (pr : String) (li : Option Nat)
    (j : Nat) (h : j ≠ i) :
    getContactById (updateContactPrecedence st i pr li) j = getContactById st j := by
  rw [getContactById_update]
  cases hf : getContactById st j with
  | none => rfl
  | some c =>
    have hf2 : List.find? (fun x => x.id == j) st.contacts = some c := hf
    have hpq := @List.find?_some Contact (fun x => x.id == j) c st.contacts hf2
    have hcj : c.id = j := beq_iff_eq.mp hpq
    have hci : (c.id == i) = false := by
      rw [beq_eq_false_iff_ne, hcj]
      exact h
    show some (if c.id == i then { c with linkPrecedence := pr, linkedId := li } else c) = some c
    rw [if_neg (by simp [hci])]

theorem getContactById_update_self (st : Store) (i : Nat) (pr : String) (li : Option Nat) :
    getContactById (updateContactPrecedence st i pr li) i
      = (getContactById st i).map
          (fun c => { c with linkPrecedence := pr, linkedId := li }) := by
  rw [getContactById_update]
  cases hf : getContactById st i with
  | none => rfl
  | some c =>
    have hf2 : List.find? (fun x => x.id == i) st.contacts = some c := hf
    have hci := @List.find?_some Contact (fun x => x.id == i) c st.contacts hf2
    have hci2 : (c.id == i) = true := hci
    show some (if c.id == i then { c with linkPrecedence := pr, linkedId := li } else c)
      = some { c with linkPrecedence := pr, linkedId := li }
    rw [if_pos hci2]

theorem getContactById_applyReconcile_ne (pid : Nat) (st : Store) (c : Contact) (j : Nat)
    (h : j ≠ c.id) :
    getContactById (applyReconcile pid st c) j = getContactById st j := by
  unfold applyReconcile
  split
  · split
    · exact getContactById_update_ne st c.id _ _ j h
    · rfl
  · split
    · exact getContactById_update_ne st c.id _ _ j h
    · rfl

theorem getContactById_fold_apply_ne (pid : Nat) (l : List Contact) (j : Nat)
    (h : ∀ x ∈ l, x.id ≠ j) :
    ∀ st : Store, getContactById (l.foldl (applyReconcile pid) st) j = getContactById st j := by
  induction l with
  | nil => intro st; rfl
  | cons c l ih =>
    intro st
    rw [List.foldl_cons, ih (fun x hx => h x (List.mem_cons_of_mem c hx))]
    exact getContactById_applyReconcile_ne pid st c j
      (fun he => h c (List.mem_cons_self c l) he.symm)

theorem applyReconcile_target (pid : Nat) (st : Store) (c : Contact)
    (hsync : getContactById st c.id = some c) :
    ∃ d, getContactById (applyReconcile pid st c) c.id = some d
      ∧ skipReconcile pid d = true := by
  unfold applyReconcile
  by_cases h1 : (c.id == pid) = true
  · rw [if_pos h1]
    by_cases h2 : (c.linkPrecedence != "primary") = true
    · rw [if_pos h2, getContactById_update_self, hsync]
      refine ⟨_, rfl, ?_⟩
      unfold skipReconcile
      rw [if_pos (show (({ c with linkPrecedence := "primary", linkedId := none } : Contact).id
          == pid) = true from h1)]
      rfl
    · rw [if_neg h2]
      refine ⟨c, hsync, ?_⟩
      unfold skipReconcile
      rw [if_pos h1]
      simpa [bne] using h2
  · rw [if_neg h1]
    by_cases h3 : (c.linkPrecedence != "secondary" || c.linkedId == none
        || !(c.linkedId == some pid)) = true
    · rw [if_pos h3, getContactById_update_self, hsync]
      refine ⟨_, rfl, ?_⟩
      unfold skipReconcile
      rw [if_neg (show ¬ ((({ c with linkPrecedence := "secondary", linkedId := some pid }
          : Contact).id == pid) = true) from fun hh => h1 hh)]
      simp
    · rw [if_neg h3]
      refine ⟨c, hsync, ?_⟩
      unfold skipReconcile
      rw [if_neg h1]
      cases hb : (c.linkPrecedence == "secondary") <;>
        cases hc2 : (c.linkedId == some pid) <;>
        cases hn : (c.linkedId == none) <;>
        simp [bne, hb, hc2, hn] at h3 ⊢

theorem reconcile_fold_skip_state (pid : Nat) (l : List Contact) :
    ∀ st : Store, (∀ c ∈ l, getContactById st c.id = some c) →
      (l.map Contact.id).Nodup →
      ∀ c ∈ l, ∃ d, getContactById (l.foldl (applyReconcile pid) st) c.id = some d
        ∧ skipReconcile pid d = true := by
  induction l with
  | nil => intro st _ _ c hc; cases hc
  | cons c0 l ih =>
    intro st hsync hnodup c hc
    rw [List.map_cons] at hnodup
    have hnotin : c0.id ∉ l.map Contact.id := (List.nodup_cons.mp hnodup).1
    have hnodup2 : (l.map Contact.id).Nodup := (List.nodup_cons.mp hnodup).2
    have hne0 : ∀ x ∈ l, x.id ≠ c0.id := by
      intro x hx heq
      exact hnotin (heq ▸ List.mem_map_of_mem Contact.id hx)
    have hsync2 : ∀ x ∈ l, getContactById (applyReconcile pid st c0) x.id = some x := by
      intro x hx
      rw [getContactById_applyReconcile_ne pid st c0 x.id (hne0 x hx)]
      exact hsync x (List.mem_cons_of_mem c0 hx)
    rw [List.foldl_cons]
    rcases List.mem_cons.mp hc with h1 | h1
    · subst h1
      obtain ⟨d, hd1, hd2⟩ :=
        applyReconcile_target pid st c (hsync c (List.mem_cons_self c l))
      refine ⟨d, ?_, hd2⟩
      rw [getContactById_fold_apply_ne pid l c.id (fun x hx => hne0 x hx)
        (applyReconcile pid st c)]
      exact hd1
    · exact ih (applyReconcile pid st c0) hsync2 hnodup2 c h1

/-- Claim C7.  Normalization is idempotent on writes: after one
application of `reconcilePrimaryStatus` to rows read from the store,
re-reading those rows and applying it again issues zero UPDATEs and
leaves the store unchanged. -/
theorem c7_reconcile_idempotent (st : Store) (contacts : List Contact) (pid : Nat)
    (hnodup : (contacts.map Contact.id).Nodup)
    (hsync : ∀ c ∈ contacts, getContactById st c.id = some c) :
    reconcilePrimaryStatus
        ((reconcilePrimaryStatus st contacts pid).1)
        (contacts.filterMap
          (fun c => getContactById ((reconcilePrimaryStatus st contacts pid).1) c.id))
        pid
      = ((reconcilePrimaryStatus st contacts pid).1, 0) := by
  have hfst : (reconcilePrimaryStatus st contacts pid).1
      = contacts.foldl (applyReconcile pid) st := by
    unfold reconcilePrimaryStatus
    exact reconcile_fold_fst pid contacts (st, 0)
  have hskip : ∀ y ∈ contacts.filterMap
      (fun c => getContactById ((reconcilePrimaryStatus st contacts pid).1) c.id),
      skipReconcile pid y = true := by
    intro y hy
    rcases List.mem_filterMap.mp hy with ⟨c, hc, hgc⟩
    obtain ⟨d, hd1, hd2⟩ := reconcile_fold_skip_state pid contacts st hsync hnodup c hc
    rw [hfst] at hgc
    rw [hgc] at hd1
    injection hd1 with hd1
    exact hd1 ▸ hd2
  unfold reconcilePrimaryStatus
  exact reconcile_skip_all pid _ hskip _

/-- Witness for C7: a two-row store where row 2 must be demoted under
row 1; the second application of the reconcile loop to the re-read rows
issues zero writes. -/
theorem c7_witness :
    (([(⟨1, none, some "a", none, "primary", 1, none⟩ : Contact),
        ⟨2, none, some "b", some 5, "primary", 2, none⟩].map Contact.id).Nodup)
      ∧ (([(⟨1, none, some "a", none, "primary", 1, none⟩ : Contact),
          ⟨2, none, some "b", some 5, "primary", 2, none⟩].all
          (fun c => getContactById
              ⟨[⟨1, none, some "a", none, "primary", 1, none⟩,
                ⟨2, none, some "b", some 5, "primary", 2, none⟩], 3⟩ c.id == some c)) = true)
      ∧ reconcilePrimaryStatus
          ((reconcilePrimaryStatus
              ⟨[⟨1, none, some "a", none, "primary", 1, none⟩,
                ⟨2, none, some "b", some 5, "primary", 2, none⟩], 3⟩
              [⟨1, none, some "a", none, "primary", 1, none⟩,
               ⟨2, none, some "b", some 5, "primary", 2, none⟩] 1).1)
          ([(⟨1, none, some "a", none, "primary", 1, none⟩ : Contact),
            ⟨2, none, some "b", some 5, "primary", 2, none⟩].filterMap
            (fun c => getContactById
              ((reconcilePrimaryStatus
                  ⟨[⟨1, none, some "a", none, "primary", 1, none⟩,
                    ⟨2, none, some "b", some 5, "primary", 2, none⟩], 3⟩
                  [⟨1, none, some "a", none, "primary", 1, none⟩,
                   ⟨2, none, some "b", some 5, "primary", 2, none⟩] 1).1) c.id))
          1
        = ((reconcilePrimaryStatus
            ⟨[⟨1, none, some "a", none, "primary", 1, none⟩,
              ⟨2, none, some "b", some 5, "primary", 2, none⟩], 3⟩
            [⟨1, none, some "a", none, "primary", 1, none⟩,
             ⟨2, none, some "b", some 5, "primary", 2, none⟩] 1).1, 0) := by
  refine ⟨by decide, by decide, ?_⟩
  exact c7_reconcile_idempotent
    ⟨[⟨1, none, some "a", none, "primary", 1, none⟩,
      ⟨2, none, some "b", some 5, "primary", 2, none⟩], 3⟩
    [⟨1, none, some "a", none, "primary", 1, none⟩,
     ⟨2, none, some "b", some 5, "primary", 2, none⟩] 1 (by decide) (by decide)

end Bitespeed
